import Mathlib

/-!
Shallow embedding of the EdgeCloudSim post-processing pipelines.

Two source files carry all of the algorithmic content verified here:

* `scripts/tutorial3/python/plotGenericLine.py` — reads per-iteration log
  values into a (iteration × scenario-index × device-index) table, aggregates
  the iteration axis with `np.nanmean`, and derives 95% Student-t confidence
  margins per cell.  Modelled in namespace `PlotGeneric`.  Floating-point
  values are modelled by real numbers; NaN (the missing marker) is modelled
  by `Option.none`.

* `scripts/sample_app5/ai_trainer/data_convertor.py` — loads per-iteration
  record files, filters by decision, balances strata by `VehicleCount`,
  z-score-normalizes feature columns and writes an ARFF artifact.  Modelled
  in namespace `DataConvertor`.
-/

namespace PlotGeneric

/-- A cell position in the results table: (iteration, scenIdx, deviceIdx). -/
abbrev Pos : Type := ℕ × ℕ × ℕ

/-- The two exception classes caught by the reading loop of
`plot_generic_line` (`FileNotFoundError` and the generic `Exception`). -/
inductive ReadError : Type
  | fileNotFound : ReadError
  | malformed : ReadError
deriving DecidableEq

/-- One cell of the `try:` block of the reading loop: on success the read
value is stored, on either exception the cell becomes NaN (here `none`).
`read` abstracts the file access plus value extraction of the block. -/
def storeCell (read : Pos → Except ReadError ℝ) (p : Pos) : Option ℝ :=
  match read p with
  | .ok v => some v
  | .error _ => none

/-- The full reading loop: every position of the iteration space receives
exactly one cell, independent of all other positions. -/
def buildTable (read : Pos → Except ReadError ℝ) (ps : List Pos) :
    List (Pos × Option ℝ) :=
  ps.map (fun p => (p, storeCell read p))

/-- `(100 * value) / total_tasks if total_tasks > 0 else 0` applied to the
two totals read from row 2 of the same log file. -/
noncomputable def toPercentageOfTotal (v t0 t1 : ℝ) : ℝ :=
  if t0 + t1 > 0 then (100 * v) / (t0 + t1) else 0

/-- Per-iteration cell content in percentage mode: the raw reading (value
plus the two totals, `none` when the file read failed) is transformed by
`toPercentageOfTotal` before it is stored in `all_results`. -/
noncomputable def pctCell (raw : Option (ℝ × ℝ × ℝ)) : Option ℝ :=
  match raw with
  | none => none
  | some (v, t0, t1) => some (toPercentageOfTotal v t0 t1)

/-- `np.nanmean` over one iteration slice: the mean of the non-missing
entries, or NaN (`none`) when every entry is missing. -/
noncomputable def nanMean (slice : List (Option ℝ)) : Option ℝ :=
  let vs := slice.filterMap id
  if vs.isEmpty then none else some (vs.sum / vs.length)

/-- The aggregated per-cell series in percentage mode: each iteration's raw
reading is converted to a percentage first, then the iteration axis is
reduced by `nanMean`. -/
noncomputable def aggregatePct (raws : List (Option (ℝ × ℝ × ℝ))) : Option ℝ :=
  nanMean (raws.map pctCell)

/-- `results = np.nanmean(...) / divisor` for one cell: NaN stays NaN. -/
noncomputable def meanResult (slice : List (Option ℝ)) (divisor : ℝ) : Option ℝ :=
  (nanMean slice).map (fun x => x / divisor)

/-- `data_slice`: the non-NaN entries of the cell's iteration slice, each
divided by `divisor`. -/
noncomputable def dataSlice (slice : List (Option ℝ)) (divisor : ℝ) : List ℝ :=
  (slice.filterMap id).map (fun x => x / divisor)

/-- Sample mean of a list of reals (`np.nanmean` on a full list). -/
noncomputable def sampleMean (xs : List ℝ) : ℝ := xs.sum / xs.length

/-- `np.std(xs, ddof=1) ^ 2`: sum of squared deviations over `n - 1`. -/
noncomputable def sampleVariance (xs : List ℝ) : ℝ :=
  ((xs.map (fun x => (x - sampleMean xs) ^ 2)).sum) / ((xs.length : ℝ) - 1)

/-- `np.std(xs, ddof=1)`: sample standard deviation, Bessel-corrected. -/
noncomputable def sampleStd (xs : List ℝ) : ℝ := Real.sqrt (sampleVariance xs)

/-- `std_err = np.std(data_slice, ddof=1) / np.sqrt(len(data_slice))`. -/
noncomputable def stdError (xs : List ℝ) : ℝ := sampleStd xs / Real.sqrt xs.length

/-- Modelled from the spec: `scipy.stats.t.interval(0.95, df, loc, scale)`
is the external SciPy routine, not part of this repository; per its
documented behaviour it returns `(loc - tcrit * scale, loc + tcrit * scale)`
where `tcrit` is the Student-t critical value `t_comma0.975` for `df` degrees of
freedom.  `tcrit` is kept symbolic (it is transcendental). -/
noncomputable def tInterval (tcrit loc scale : ℝ) : ℝ × ℝ :=
  (loc - tcrit * scale, loc + tcrit * scale)

/-- The value used as `loc`: `mean_results[i, j]` under the guard
`len(data_slice) > 1` (in that case `nanMean` is a genuine value). -/
noncomputable def locValue (slice : List (Option ℝ)) (divisor : ℝ) : ℝ :=
  (meanResult slice divisor).getD 0

/-- `min_ci_vals[i, j]`: zero-initialized, and set to
`mean_results[i,j] - ci[0]` only when the cell has more than one non-NaN
sample. -/
noncomputable def minCiVal (tcrit : ℝ) (slice : List (Option ℝ)) (divisor : ℝ) : ℝ :=
  if 1 < (dataSlice slice divisor).length then
    locValue slice divisor -
      (tInterval tcrit (locValue slice divisor) (stdError (dataSlice slice divisor))).1
  else 0

/-- `max_ci_vals[i, j]`: zero-initialized, and set to
`ci[1] - mean_results[i,j]` only when the cell has more than one non-NaN
sample. -/
noncomputable def maxCiVal (tcrit : ℝ) (slice : List (Option ℝ)) (divisor : ℝ) : ℝ :=
  if 1 < (dataSlice slice divisor).length then
    (tInterval tcrit (locValue slice divisor) (stdError (dataSlice slice divisor))).2 -
      locValue slice divisor
  else 0

end PlotGeneric

namespace DataConvertor

/-- One row of a `<vehicle>_learnerOutputFile.cvs` record file: the decision
and result columns, the `VehicleCount` column added by the loader, and the
numeric columns accessed by name. -/
structure SimRecord where
  decision : String
  result : String
  vehicleCount : ℕ
  nums : String → ℝ

/-- `getDecisionColumnName`: for a target outside the three known
identifiers the Python function falls through every branch and raises
`UnboundLocalError` when returning; that failure is modelled by `none`. -/
def getDecisionColumnName (target : String) : Option String :=
  if target = "edge" then some "EDGE"
  else if target = "cloud_rsu" then some "CLOUD_VIA_RSU"
  else if target = "cloud_gsm" then some "CLOUD_VIA_GSM"
  else none

/-- `getClassifierColumns`, with the same fall-through behaviour. -/
def getClassifierColumns (target : String) : Option (List String) :=
  if target = "edge" then
    some ["NumOffloadedTask", "TaskLength", "WLANUploadDelay",
          "WLANDownloadDelay", "AvgEdgeUtilization", "Result"]
  else if target = "cloud_rsu" then
    some ["NumOffloadedTask", "WANUploadDelay", "WANDownloadDelay", "Result"]
  else if target = "cloud_gsm" then
    some ["NumOffloadedTask", "GSMUploadDelay", "GSMDownloadDelay", "Result"]
  else none

/-- `getRegressionColumns`, with the same fall-through behaviour. -/
def getRegressionColumns (target : String) : Option (List String) :=
  if target = "edge" then
    some ["TaskLength", "AvgEdgeUtilization", "ServiceTime"]
  else if target = "cloud_rsu" then
    some ["TaskLength", "WANUploadDelay", "WANDownloadDelay", "ServiceTime"]
  else if target = "cloud_gsm" then
    some ["TaskLength", "GSMUploadDelay", "GSMDownloadDelay", "ServiceTime"]
  else none

/-- The configuration values read from `config.json`.  `trainPercent` is the
`train_data_ratio` entry (a percentage of iterations). -/
structure ConvConfig where
  numIterations : ℕ
  trainPercent : ℕ
  minVehicle : ℕ
  maxVehicle : ℕ
  vehicleStepSize : ℕ

/-- `testDataStartIndex = (train_data_ratio * num_iterations) / 100` with
Python 3 true division, hence an exact rational. -/
def testDataStartIndex (cfg : ConvConfig) : ℚ :=
  ((cfg.trainPercent : ℚ) * (cfg.numIterations : ℚ)) / 100

/-- `range(min_vehicle, max_vehicle + 1, vehicle_step_size)`. -/
def vehicleRange (cfg : ConvConfig) : List ℕ :=
  (List.range
      ((cfg.maxVehicle + 1 - cfg.minVehicle + cfg.vehicleStepSize - 1) /
        cfg.vehicleStepSize)).map
    (fun i => cfg.minVehicle + i * cfg.vehicleStepSize)

/-- The guard of the loading loop:
`(datatype == "train" and ite < testDataStartIndex) or
 (datatype == "test" and ite >= testDataStartIndex)`. -/
def selectIte (cfg : ConvConfig) (datatype : String) (ite : ℕ) : Bool :=
  (datatype == "train" && decide ((ite : ℚ) < testDataStartIndex cfg)) ||
    (datatype == "test" && decide (testDataStartIndex cfg ≤ (ite : ℚ)))

/-- The (iteration, vehicle) pairs whose record files the loading loop
reads, in loop order (iterations outer, vehicle counts inner). -/
def readPairs (cfg : ConvConfig) (datatype : String) : List (ℕ × ℕ) :=
  (List.range cfg.numIterations).flatMap
    (fun ite =>
      (vehicleRange cfg).filterMap
        (fun v => if selectIte cfg datatype ite then some (ite, v) else none))

/-- The failures that terminate the conversion pipeline: a missing record
file (`pd.read_csv` raises, there is no handler) and an unknown target
(`UnboundLocalError` from `getDecisionColumnName`). -/
inductive ConvError : Type
  | missingFile (ite vehicle : ℕ)
  | unknownTarget (t : String)
deriving DecidableEq

/-- The record files actually opened, in order, before the loading loop
either finishes or dies on a missing file.  `fs` maps an (iteration,
vehicle) pair to the file's rows, `none` when the file does not exist. -/
def readTrace (fs : ℕ → ℕ → Option (List SimRecord)) :
    List (ℕ × ℕ) → List (ℕ × ℕ)
  | [] => []
  | (ite, v) :: rest =>
    match fs ite v with
    | none => [(ite, v)]
    | some _ => (ite, v) :: readTrace fs rest

/-- The loading loop: each file's rows get `VehicleCount` set to the
vehicle count encoded in the file name, and all rows are concatenated. -/
def readAll (fs : ℕ → ℕ → Option (List SimRecord)) :
    List (ℕ × ℕ) → Except ConvError (List SimRecord)
  | [] => .ok []
  | (ite, v) :: rest =>
    match fs ite v with
    | none => .error (.missingFile ite v)
    | some rows =>
      match readAll fs rest with
      | .error e => .error e
      | .ok tail => .ok ((rows.map (fun r => { r with vehicleCount := v })) ++ tail)

/-- `data_set = data_set[data_set['Decision'] == getDecisionColumnName(target)]`
(line 71): the first point at which the target identifier is examined. -/
def filterByDecision (target : String) (ds : List SimRecord) :
    Except ConvError (List SimRecord) :=
  match getDecisionColumnName target with
  | none => .error (.unknownTarget target)
  | some col => .ok (ds.filter (fun r => r.decision = col))

/-- The front of the conversion pipeline in source order: the loading loop
runs to completion first (its file accesses are the returned trace), and
only afterwards is the decision column name for `target` evaluated. -/
def loadAndFilter (fs : ℕ → ℕ → Option (List SimRecord)) (cfg : ConvConfig)
    (target datatype : String) :
    List (ℕ × ℕ) × Except ConvError (List SimRecord) :=
  (readTrace fs (readPairs cfg datatype),
   match readAll fs (readPairs cfg datatype) with
   | .error e => .error e
   | .ok ds => filterByDecision target ds)

/-- The rows of `d` whose `VehicleCount` equals `v`: one stratum, i.e. one
`groupby('VehicleCount')` group. -/
def stratum (d : List SimRecord) (v : ℕ) : List SimRecord :=
  d.filter (fun r => r.vehicleCount = v)

/-- The distinct `VehicleCount` keys of `d`, the groups visited by
`groupby('VehicleCount')`. -/
def vkeys (d : List SimRecord) : List ℕ :=
  (d.map (fun r => r.vehicleCount)).dedup

/-- `lambda x: x if len(x) < size else x.sample(size)` applied to one
stratum.  `sample` abstracts `DataFrame.sample`: a uniform draw of `size`
rows without replacement. -/
def balanceStratum (sample : List SimRecord → ℕ → List SimRecord) (size : ℕ)
    (x : List SimRecord) : List SimRecord :=
  if x.length < size then x else sample x size

/-- `d.groupby('VehicleCount').apply(lambda x: ...)`: the per-stratum rule
applied to every group, results concatenated. -/
def groupApply (sample : List SimRecord → ℕ → List SimRecord) (size : ℕ)
    (d : List SimRecord) : List SimRecord :=
  (vkeys d).flatMap (fun v => balanceStratum sample size (stratum d v))

/-- `df0 = data_set[data_set['Result']=="fail"]`. -/
def failSet (d : List SimRecord) : List SimRecord :=
  d.filter (fun r => r.result = "fail")

/-- `df1 = data_set[data_set['Result']=="success"]`. -/
def successSet (d : List SimRecord) : List SimRecord :=
  d.filter (fun r => r.result = "success")

/-- `size = len(df0[df0['VehicleCount']==max_vehicle]) // 2`. -/
def classifierCap (d : List SimRecord) (maxV : ℕ) : ℕ :=
  (stratum (failSet d) maxV).length / 2

/-- The classifier-mode balancing branch: both result classes are subsampled
per stratum with the same cap and recombined (`pd.concat([df0, df1])`). -/
def balanceClassifier (sample : List SimRecord → ℕ → List SimRecord)
    (maxV : ℕ) (d : List SimRecord) : List SimRecord :=
  groupApply sample (classifierCap d maxV) (failSet d) ++
    groupApply sample (classifierCap d maxV) (successSet d)

/-- `size = len(data_set[data_set['VehicleCount']==max_vehicle]) // 3`,
computed after the success-only filter. -/
def regressionCap (d : List SimRecord) (maxV : ℕ) : ℕ :=
  (stratum (successSet d) maxV).length / 3

/-- The regression-mode balancing branch: failures are discarded, then the
per-stratum cap rule is applied. -/
def balanceRegression (sample : List SimRecord → ℕ → List SimRecord)
    (maxV : ℕ) (d : List SimRecord) : List SimRecord :=
  groupApply sample (regressionCap d maxV) (successSet d)

/-- What `DataFrame.sample(k)` guarantees for `k` at most the length: it
returns exactly `k` of the rows, drawn without replacement (so the result
is a permutation of a sublist); the draw itself is a parameter. -/
def SampleOk (sample : List SimRecord → ℕ → List SimRecord) : Prop :=
  ∀ l k, k ≤ l.length → (sample l k).length = k ∧ List.Subperm (sample l k) l

/-- One cell of the final dataframe: a float, a categorical string, or a
non-finite float (NaN/inf), which is what pandas produces when a zero
standard deviation is used as a divisor. -/
inductive Cell : Type
  | num (x : ℝ)
  | str (s : String)
  | undef

/-- One numeric column of the dataset, read off by column name. -/
def colNum (ds : List SimRecord) (c : String) : List ℝ :=
  ds.map (fun r => r.nums c)

/-- The value of column `c` in row `r` of the dataset before
normalization: `Result` is categorical, everything else numeric. -/
def cellOf (r : SimRecord) (c : String) : Cell :=
  if c = "Result" then .str r.result else .num (r.nums c)

/-- `znorm(column) = (column - column.mean()) / column.std()` (pandas
`std`, ddof = 1).  When the standard deviation is zero the float division
yields non-finite values (NaN/inf) for every entry — no error is raised;
that outcome is the `Cell.undef` branch. -/
noncomputable def znorm (column : List ℝ) : List Cell :=
  column.map (fun v =>
    if PlotGeneric.sampleStd column = 0 then Cell.undef
    else Cell.num ((v - PlotGeneric.sampleMean column) / PlotGeneric.sampleStd column))

/-- The attribute-extraction loop (lines 111–116): a fresh frame with
exactly the target columns; `Result` and `ServiceTime` pass through
unchanged, every other column is replaced by its z-normalized version
computed over the whole (post-balancing) dataset `ds`. -/
noncomputable def extractRelated (ds : List SimRecord) (cols : List String) :
    List (String × List Cell) :=
  cols.map (fun c =>
    (c, if c = "Result" ∨ c = "ServiceTime" then ds.map (fun r => cellOf r c)
        else znorm (colNum ds c)))

/-- Row-wise view of the same normalization: the cell of row `r`, column
`c` in the extracted frame. -/
noncomputable def normCell (ds : List SimRecord) (r : SimRecord) (c : String) : Cell :=
  if c = "Result" ∨ c = "ServiceTime" then cellOf r c
  else if PlotGeneric.sampleStd (colNum ds c) = 0 then Cell.undef
  else Cell.num ((r.nums c - PlotGeneric.sampleMean (colNum ds c)) /
    PlotGeneric.sampleStd (colNum ds c))

/-- Lines 90–116 composed for classifier mode: the normalization input is
exactly the output of the balancing step, so all column statistics are
taken over the post-balancing dataset. -/
noncomputable def convertedFrame (sample : List SimRecord → ℕ → List SimRecord)
    (maxV : ℕ) (d : List SimRecord) (cols : List String) :
    List (String × List Cell) :=
  extractRelated (balanceClassifier sample maxV d) cols

/-- The attribute declaration written for column `c`: the result column is
nominal with exactly the two values fail and success, anything else REAL. -/
def attrDeclFor (c : String) : String :=
  if c = "Result" then "@attribute class \x7bfail,success\x7d"
  else "@attribute " ++ c ++ " REAL"

/-- The header block of the `.arff` artifact: relation line, blank line,
one attribute line per selected column, blank line, `@data`. -/
def arffHeader (target : String) (cols : List String) : List String :=
  ("@relation " ++ target) :: "" :: (cols.map attrDeclFor ++ ["", "@data"])

/-- How one cell is rendered into the CSV data block; float formatting is
abstracted by `render`. -/
def renderCell (render : ℝ → String) : Cell → String
  | .num x => render x
  | .str s => s
  | .undef => ""

/-- The fields of one data line: `to_csv(header=False, index=False)` writes
exactly one rendered cell per declared column, in declared order — no row
index, no header. -/
noncomputable def dataRowFields (render : ℝ → String) (ds : List SimRecord)
    (cols : List String) (r : SimRecord) : List String :=
  cols.map (fun c => renderCell render (normCell ds r c))

/-- The data block: one comma-separated line per record of the dataset. -/
noncomputable def dataRows (render : ℝ → String) (ds : List SimRecord)
    (cols : List String) : List String :=
  ds.map (fun r => String.intercalate "," (dataRowFields render ds cols r))

end DataConvertor

namespace Wit

/-- Concrete reader for witnesses: position (0,0,0) raises file-not-found,
every other position yields the value 1. -/
def readW : PlotGeneric.Pos → Except PlotGeneric.ReadError ℝ :=
  fun q => if q = ((0, 0, 0) : PlotGeneric.Pos) then .error .fileNotFound else .ok 1

/-- Concrete reader agreeing with `readW` away from (0,0,0). -/
def read2W : PlotGeneric.Pos → Except PlotGeneric.ReadError ℝ :=
  fun _ => .ok 1

/-- A concrete draw without replacement: take the first `k` rows. -/
def takeSample : List DataConvertor.SimRecord → ℕ → List DataConvertor.SimRecord :=
  fun l k => l.take k

/-- A concrete record with constant numeric columns. -/
def recW (res : String) (v : ℕ) (x : ℝ) : DataConvertor.SimRecord :=
  { decision := "EDGE", result := res, vehicleCount := v, nums := fun _ => x }

/-- A small concrete dataset with one failed and one successful record. -/
def dW : List DataConvertor.SimRecord := [recW "fail" 100 1, recW "success" 100 3]

/-- A dataset whose numeric columns are constant (standard deviation 0). -/
def dsC : List DataConvertor.SimRecord := [recW "success" 100 5, recW "success" 100 5]

/-- A concrete float renderer. -/
def renderW : ℝ → String := fun _ => "0"

/-- Concrete selected columns. -/
def colsW : List String := ["TaskLength", "ServiceTime", "Result"]

/-- A file system on which every record file exists and is empty. -/
def fs1 : ℕ → ℕ → Option (List DataConvertor.SimRecord) := fun _ _ => some []

/-- num_iterations 1, train ratio 100%, a single vehicle count 100. -/
def cfg1 : DataConvertor.ConvConfig :=
  { numIterations := 1, trainPercent := 100, minVehicle := 100,
    maxVehicle := 100, vehicleStepSize := 100 }

/-- Two iterations, 50% train split, a single vehicle count 100. -/
def cfgW : DataConvertor.ConvConfig :=
  { numIterations := 2, trainPercent := 50, minVehicle := 100,
    maxVehicle := 100, vehicleStepSize := 100 }

end Wit

/-- C4: the percentage-of-total transform returns `100 * v / (t0 + t1)`
when the sum of the two totals is positive and 0 when the sum is 0, and in
percentage mode it is applied to each iteration's cell before the
iteration-axis mean is computed, not to the aggregate. -/
theorem C4_percentage_per_iteration (v t0 t1 : ℝ)
    (raws : List (Option (ℝ × ℝ × ℝ))) :
    (t0 + t1 > 0 →
      PlotGeneric.toPercentageOfTotal v t0 t1 = (100 * v) / (t0 + t1)) ∧
    (t0 + t1 = 0 → PlotGeneric.toPercentageOfTotal v t0 t1 = 0) ∧
    PlotGeneric.aggregatePct raws =
      PlotGeneric.nanMean
        (raws.map (Option.map
          (fun p => PlotGeneric.toPercentageOfTotal p.1 p.2.1 p.2.2))) := by
  refine ⟨fun h => ?_, fun h => ?_, ?_⟩
  · rw [PlotGeneric.toPercentageOfTotal, if_pos h]
  · rw [PlotGeneric.toPercentageOfTotal, if_neg (by rw [h]; exact lt_irrefl 0)]
  · unfold PlotGeneric.aggregatePct
    congr 1
    apply List.map_congr_left
    intro x _
    cases x with
    | none => rfl
    | some p => rcases p with ⟨a, b, c⟩; rfl

/-- Witness for C4 at value 5 with totals (15, 5) and totals (0, 0). -/
theorem C4_witness :
    PlotGeneric.toPercentageOfTotal 5 15 5 = 25 ∧
    PlotGeneric.toPercentageOfTotal 5 0 0 = 0 := by
  constructor
  · rw [(C4_percentage_per_iteration 5 15 5 []).1 (by norm_num)]
    norm_num
  · exact (C4_percentage_per_iteration 5 0 0 []).2.1 (by norm_num)

/-- C3: a cell that is missing in every iteration aggregates to the missing
marker (not zero) and has margin 0; more generally any cell with fewer than
two non-missing samples has margin 0. -/
theorem C3_missing_policy (slice : List (Option ℝ)) (tcrit divisor : ℝ) :
    ((∀ x ∈ slice, x = none) →
      PlotGeneric.meanResult slice divisor = none ∧
      PlotGeneric.minCiVal tcrit slice divisor = 0 ∧
      PlotGeneric.maxCiVal tcrit slice divisor = 0) ∧
    ((slice.filterMap id).length < 2 →
      PlotGeneric.minCiVal tcrit slice divisor = 0 ∧
      PlotGeneric.maxCiVal tcrit slice divisor = 0) := by
  have hlen : (PlotGeneric.dataSlice slice divisor).length =
      (slice.filterMap id).length := by
    simp [PlotGeneric.dataSlice]
  have margin0 : (slice.filterMap id).length < 2 →
      PlotGeneric.minCiVal tcrit slice divisor = 0 ∧
      PlotGeneric.maxCiVal tcrit slice divisor = 0 := by
    intro h
    have h2 : ¬ 1 < (PlotGeneric.dataSlice slice divisor).length := by omega
    exact ⟨by rw [PlotGeneric.minCiVal, if_neg h2],
      by rw [PlotGeneric.maxCiVal, if_neg h2]⟩
  refine ⟨fun h => ?_, margin0⟩
  have hnil : slice.filterMap id = [] := by
    rw [List.filterMap_eq_nil_iff]
    intro a ha
    simpa using h a ha
  refine ⟨?_, margin0 (by rw [hnil]; simp)⟩
  simp [PlotGeneric.meanResult, PlotGeneric.nanMean, hnil]

/-- Witness for C3 on the all-missing slice [none, none]. -/
theorem C3_witness :
    PlotGeneric.meanResult [none, none] 1 = none ∧
    PlotGeneric.minCiVal 1 [none, none] 1 = 0 ∧
    PlotGeneric.maxCiVal 1 [none, none] 1 = 0 := by
  have h := (C3_missing_policy [none, none] 1 1).1 (by intro x hx; simpa using hx)
  exact ⟨h.1, h.2.1, h.2.2⟩

/-- C7: every position of the reading loop is attempted and stored exactly
once; a failing read makes only that position's cell missing, and changing
the read outcome at one position leaves every other cell unchanged. -/
theorem C7_partial_failure
    (read read' : PlotGeneric.Pos → Except PlotGeneric.ReadError ℝ)
    (ps : List PlotGeneric.Pos) (p : PlotGeneric.Pos)
    (hagree : ∀ q, q ≠ p → read q = read' q) :
    (PlotGeneric.buildTable read ps).length = ps.length ∧
    (∀ q ∈ ps, (q, PlotGeneric.storeCell read q) ∈ PlotGeneric.buildTable read ps) ∧
    (∀ e, read p = .error e → PlotGeneric.storeCell read p = none) ∧
    (∀ q ∈ ps, q ≠ p →
      PlotGeneric.storeCell read q = PlotGeneric.storeCell read' q) := by
  refine ⟨by simp [PlotGeneric.buildTable], ?_, ?_, ?_⟩
  · intro q hq
    exact List.mem_map.mpr ⟨q, hq, rfl⟩
  · intro e he
    simp [PlotGeneric.storeCell, he]
  · intro q _ hne
    simp [PlotGeneric.storeCell, hagree q hne]

/-- Witness for C7: two positions, the first read fails, the second agrees
with an everywhere-succeeding reader. -/
theorem C7_witness :
    (PlotGeneric.buildTable Wit.readW
      [((0, 0, 0) : PlotGeneric.Pos), (0, 0, 1)]).length = 2 ∧
    PlotGeneric.storeCell Wit.readW ((0, 0, 0) : PlotGeneric.Pos) = none ∧
    PlotGeneric.storeCell Wit.readW ((0, 0, 1) : PlotGeneric.Pos) =
      PlotGeneric.storeCell Wit.read2W ((0, 0, 1) : PlotGeneric.Pos) := by
  have hagree : ∀ q, q ≠ ((0, 0, 0) : PlotGeneric.Pos) → Wit.readW q = Wit.read2W q := by
    intro q hq
    unfold Wit.readW Wit.read2W
    rw [if_neg hq]
  have h := C7_partial_failure Wit.readW Wit.read2W
    [((0, 0, 0) : PlotGeneric.Pos), (0, 0, 1)] ((0, 0, 0) : PlotGeneric.Pos) hagree
  refine ⟨h.1, h.2.2.1 .fileNotFound (by rfl), ?_⟩
  exact h.2.2.2 (0, 0, 1) (by simp) (by decide)

/-- Helper: dividing every element of a list divides its sum. -/
theorem list_sum_map_div (l : List ℝ) (d : ℝ) :
    (l.map (fun x => x / d)).sum = l.sum / d := by
  simp [div_eq_mul_inv, List.sum_map_mul_right]

/-- Helper: with at least one non-missing sample, the `loc` used by the
interval call is the sample mean of the scaled data slice. -/
theorem locValue_eq_sampleMean (slice : List (Option ℝ)) (divisor : ℝ)
    (h : slice.filterMap id ≠ []) :
    PlotGeneric.locValue slice divisor =
      PlotGeneric.sampleMean (PlotGeneric.dataSlice slice divisor) := by
  have hne : (slice.filterMap id).isEmpty = false := by
    simpa [List.isEmpty_iff] using h
  simp only [PlotGeneric.locValue, PlotGeneric.meanResult, PlotGeneric.nanMean,
    PlotGeneric.sampleMean, PlotGeneric.dataSlice, hne, Bool.false_eq_true,
    if_false, Option.map_some', Option.getD_some, List.length_map]
  rw [list_sum_map_div]
  exact div_right_comm _ _ _

/-- C1: for a cell with at least two non-missing samples, the two
separately computed interval offsets are equal, both equal the Student-t
margin `tcrit * (sample std / sqrt n)` over the scaled data slice, and the
reported interval is symmetric around the sample mean. -/
theorem C1_symmetric_margin (slice : List (Option ℝ)) (tcrit divisor : ℝ)
    (h : 2 ≤ (slice.filterMap id).length) :
    PlotGeneric.minCiVal tcrit slice divisor =
      PlotGeneric.maxCiVal tcrit slice divisor ∧
    PlotGeneric.minCiVal tcrit slice divisor =
      tcrit * (PlotGeneric.sampleStd (PlotGeneric.dataSlice slice divisor) /
        Real.sqrt ((PlotGeneric.dataSlice slice divisor).length)) ∧
    (PlotGeneric.tInterval tcrit (PlotGeneric.locValue slice divisor)
        (PlotGeneric.stdError (PlotGeneric.dataSlice slice divisor))).1 =
      PlotGeneric.sampleMean (PlotGeneric.dataSlice slice divisor) -
        PlotGeneric.minCiVal tcrit slice divisor ∧
    (PlotGeneric.tInterval tcrit (PlotGeneric.locValue slice divisor)
        (PlotGeneric.stdError (PlotGeneric.dataSlice slice divisor))).2 =
      PlotGeneric.sampleMean (PlotGeneric.dataSlice slice divisor) +
        PlotGeneric.maxCiVal tcrit slice divisor := by
  have hlen : (PlotGeneric.dataSlice slice divisor).length =
      (slice.filterMap id).length := by
    simp [PlotGeneric.dataSlice]
  have hcond : 1 < (PlotGeneric.dataSlice slice divisor).length := by omega
  have hne : slice.filterMap id ≠ [] := by
    intro hx
    rw [hx] at h
    simp at h
  have hloc := locValue_eq_sampleMean slice divisor hne
  rw [PlotGeneric.minCiVal, PlotGeneric.maxCiVal, if_pos hcond, if_pos hcond,
    PlotGeneric.tInterval, PlotGeneric.stdError, hloc]
  exact ⟨by ring, by ring, by ring, by ring⟩

/-- Witness for C1 on the slice [10, 12] (no missing entries). -/
theorem C1_witness :
    2 ≤ (([some (10 : ℝ), some 12] : List (Option ℝ)).filterMap id).length ∧
    PlotGeneric.minCiVal 1 [some 10, some 12] 1 =
      PlotGeneric.maxCiVal 1 [some 10, some 12] 1 := by
  have hl : 2 ≤ (([some (10 : ℝ), some 12] : List (Option ℝ)).filterMap id).length :=
    Nat.le.refl
  exact ⟨hl, (C1_symmetric_margin [some 10, some 12] 1 1 hl).1⟩

/-- Helper: members of a balanced stratum come from the input stratum. -/
theorem mem_balanceStratum {sample : List DataConvertor.SimRecord → ℕ → List DataConvertor.SimRecord}
    (hs : DataConvertor.SampleOk sample) {size : ℕ}
    {x : List DataConvertor.SimRecord} {a : DataConvertor.SimRecord}
    (ha : a ∈ DataConvertor.balanceStratum sample size x) : a ∈ x := by
  unfold DataConvertor.balanceStratum at ha
  by_cases hlt : x.length < size
  · rwa [if_pos hlt] at ha
  · rw [if_neg hlt] at ha
    exact (hs x size (le_of_not_lt hlt)).2.subset ha

/-- Helper: filtering a balanced stratum whose members all share the key
`w` by the key `v` keeps everything or nothing. -/
theorem stratum_balanceStratum {sample : List DataConvertor.SimRecord → ℕ → List DataConvertor.SimRecord}
    (hs : DataConvertor.SampleOk sample) (size : ℕ)
    (d : List DataConvertor.SimRecord) (w v : ℕ) :
    DataConvertor.stratum
        (DataConvertor.balanceStratum sample size (DataConvertor.stratum d w)) v =
      if w = v then
        DataConvertor.balanceStratum sample size (DataConvertor.stratum d v)
      else [] := by
  by_cases hwv : w = v
  · subst hwv
    rw [if_pos rfl]
    apply List.filter_eq_self.mpr
    intro a ha
    have hmem := mem_balanceStratum hs ha
    have hv : a.vehicleCount = w := by
      simpa using (List.mem_filter.mp hmem).2
    simp [hv]
  · rw [if_neg hwv]
    apply List.filter_eq_nil_iff.mpr
    intro a ha
    have hmem := mem_balanceStratum hs ha
    have hv : a.vehicleCount = w := by
      simpa using (List.mem_filter.mp hmem).2
    simp [hv, hwv]

/-- Helper: a nodup key list where at most one key contributes flattens to
that key's contribution. -/
theorem flatMap_ite_single {α : Type} (v : ℕ) (E : List α) :
    ∀ (l : List ℕ), l.Nodup →
      (l.flatMap (fun w => if w = v then E else [])) =
        if v ∈ l then E else [] := by
  intro l hnd
  induction l with
  | nil => simp
  | cons a t ih =>
    rw [List.flatMap_cons, ih (List.nodup_cons.mp hnd).2]
    by_cases hav : a = v
    · subst hav
      have hnt : a ∉ t := (List.nodup_cons.mp hnd).1
      rw [if_pos rfl, if_neg hnt, if_pos (List.mem_cons_self a t)]
      simp
    · rw [if_neg hav]
      by_cases hvt : v ∈ t
      · rw [if_pos hvt, if_pos (List.mem_cons_of_mem _ hvt)]
        simp
      · rw [if_neg hvt, if_neg (by
          intro hmem
          rcases List.mem_cons.mp hmem with rfl | hmem2
          · exact hav rfl
          · exact hvt hmem2)]
        simp

/-- Helper: `groupby('VehicleCount').apply(...)` acts stratum by stratum. -/
theorem stratum_groupApply {sample : List DataConvertor.SimRecord → ℕ → List DataConvertor.SimRecord}
    (hs : DataConvertor.SampleOk sample) (size : ℕ)
    (d : List DataConvertor.SimRecord) (v : ℕ) :
    DataConvertor.stratum (DataConvertor.groupApply sample size d) v =
      DataConvertor.balanceStratum sample size (DataConvertor.stratum d v) := by
  have hcomp : ∀ w : ℕ,
      (DataConvertor.balanceStratum sample size (DataConvertor.stratum d w)).filter
          (fun r => decide (r.vehicleCount = v)) =
        if w = v then
          DataConvertor.balanceStratum sample size (DataConvertor.stratum d v)
        else [] :=
    fun w => stratum_balanceStratum hs size d w v
  show (DataConvertor.groupApply sample size d).filter _ = _
  unfold DataConvertor.groupApply DataConvertor.vkeys
  rw [List.filter_flatMap]
  simp only [hcomp]
  rw [flatMap_ite_single v _ _ (List.nodup_dedup _)]
  by_cases hv : v ∈ (d.map (fun r => r.vehicleCount)).dedup
  · rw [if_pos hv]
  · rw [if_neg hv]
    have hnil : DataConvertor.stratum d v = [] := by
      apply List.filter_eq_nil_iff.mpr
      intro a ha
      simp only [decide_eq_true_eq]
      intro hveq
      exact hv (by rw [List.mem_dedup]; exact List.mem_map.mpr ⟨a, ha, hveq⟩)
    rw [hnil]
    unfold DataConvertor.balanceStratum
    by_cases h0 : ([] : List DataConvertor.SimRecord).length < size
    · rw [if_pos h0]
    · rw [if_neg h0]
      have hsz : size = 0 := by simpa using h0
      subst hsz
      exact (List.length_eq_zero.mp (hs [] 0 (le_refl 0)).1).symm

/-- Helper: strata distribute over concatenation. -/
theorem stratum_append (a b : List DataConvertor.SimRecord) (v : ℕ) :
    DataConvertor.stratum (a ++ b) v =
      DataConvertor.stratum a v ++ DataConvertor.stratum b v :=
  List.filter_append _ _

/-- Helper: taking the first `k` rows is a legitimate draw without
replacement. -/
theorem takeSampleOk : DataConvertor.SampleOk Wit.takeSample := by
  intro l k hk
  constructor
  · rw [Wit.takeSample, List.length_take]
    exact min_eq_left hk
  · exact (List.take_sublist k l).subperm

/-- C2: in both balancing modes every processed stratum obeys the
cap-or-keep-all rule: the output stratum is never longer than the input
stratum, a stratum strictly below the cap passes through unchanged, and
otherwise exactly `cap` records are drawn without replacement; the two
pipeline branches apply this rule stratum by stratum with their respective
caps. -/
theorem C2_balancer_strata
    (sample : List DataConvertor.SimRecord → ℕ → List DataConvertor.SimRecord)
    (hs : DataConvertor.SampleOk sample) (d : List DataConvertor.SimRecord)
    (maxV v : ℕ) :
    (∀ size x, (DataConvertor.balanceStratum sample size x).length ≤ x.length) ∧
    (∀ size x, x.length < size → DataConvertor.balanceStratum sample size x = x) ∧
    (∀ size x, size ≤ x.length →
      (DataConvertor.balanceStratum sample size x).length = size ∧
      List.Subperm (DataConvertor.balanceStratum sample size x) x) ∧
    DataConvertor.stratum (DataConvertor.balanceClassifier sample maxV d) v =
      DataConvertor.balanceStratum sample (DataConvertor.classifierCap d maxV)
          (DataConvertor.stratum (DataConvertor.failSet d) v) ++
        DataConvertor.balanceStratum sample (DataConvertor.classifierCap d maxV)
          (DataConvertor.stratum (DataConvertor.successSet d) v) ∧
    DataConvertor.stratum (DataConvertor.balanceRegression sample maxV d) v =
      DataConvertor.balanceStratum sample (DataConvertor.regressionCap d maxV)
        (DataConvertor.stratum (DataConvertor.successSet d) v) := by
  refine ⟨?_, ?_, ?_, ?_, ?_⟩
  · intro size x
    unfold DataConvertor.balanceStratum
    by_cases hlt : x.length < size
    · rw [if_pos hlt]
    · rw [if_neg hlt]
      rw [(hs x size (le_of_not_lt hlt)).1]
      exact le_of_not_lt hlt
  · intro size x hlt
    exact if_pos hlt
  · intro size x hle
    unfold DataConvertor.balanceStratum
    rw [if_neg (not_lt.mpr hle)]
    exact hs x size hle
  · rw [DataConvertor.balanceClassifier, stratum_append,
      stratum_groupApply hs, stratum_groupApply hs]
  · rw [DataConvertor.balanceRegression, stratum_groupApply hs]

/-- Witness for C2 with the take-first sampler on a two-record dataset. -/
theorem C2_witness :
    DataConvertor.SampleOk Wit.takeSample ∧
    DataConvertor.stratum
        (DataConvertor.balanceClassifier Wit.takeSample 100 Wit.dW) 100 =
      DataConvertor.balanceStratum Wit.takeSample
          (DataConvertor.classifierCap Wit.dW 100)
          (DataConvertor.stratum (DataConvertor.failSet Wit.dW) 100) ++
        DataConvertor.balanceStratum Wit.takeSample
          (DataConvertor.classifierCap Wit.dW 100)
          (DataConvertor.stratum (DataConvertor.successSet Wit.dW) 100) :=
  ⟨takeSampleOk,
    (C2_balancer_strata Wit.takeSample takeSampleOk Wit.dW 100 100).2.2.2.1⟩

/-- C5 (code-bug evidence): on a constant column the sample standard
deviation is 0, `znorm` silently maps every entry to a non-finite cell,
and the export still emits one (empty-valued) CSV line per record — at no
point is an error signaled. -/
theorem C5_zero_std_silent :
    PlotGeneric.sampleStd [(5 : ℝ), 5] = 0 ∧
    DataConvertor.znorm [(5 : ℝ), 5] =
      [DataConvertor.Cell.undef, DataConvertor.Cell.undef] ∧
    DataConvertor.dataRows Wit.renderW Wit.dsC ["TaskLength"] = ["", ""] := by
  have hv : PlotGeneric.sampleVariance [(5 : ℝ), 5] = 0 := by
    simp [PlotGeneric.sampleVariance, PlotGeneric.sampleMean]
  have hstd : PlotGeneric.sampleStd [(5 : ℝ), 5] = 0 := by
    rw [PlotGeneric.sampleStd, hv, Real.sqrt_zero]
  have hcol : DataConvertor.colNum Wit.dsC "TaskLength" = [5, 5] := by
    simp [DataConvertor.colNum, Wit.dsC, Wit.recW]
  refine ⟨hstd, ?_, ?_⟩
  · simp [DataConvertor.znorm, hstd]
  · have hcells : ∀ r, DataConvertor.normCell Wit.dsC r "TaskLength" =
        DataConvertor.Cell.undef := by
      intro r
      unfold DataConvertor.normCell
      rw [if_neg (by decide), if_pos (by rw [hcol]; exact hstd)]
    have hrows : DataConvertor.dataRows Wit.renderW Wit.dsC ["TaskLength"] =
        Wit.dsC.map (fun _ => "") := by
      unfold DataConvertor.dataRows
      apply List.map_congr_left
      intro r _
      unfold DataConvertor.dataRowFields
      rw [List.map_cons, List.map_nil, hcells r]
      rfl
    rw [hrows]
    rfl

/-- C8: the extraction loop keeps exactly the selected columns; `Result`
and `ServiceTime` pass through with every value unchanged; every other
selected column is replaced by its z-normalized version whose mean and
standard deviation are those of the column over the entire post-balancing
dataset. -/
theorem C8_normalization
    (sample : List DataConvertor.SimRecord → ℕ → List DataConvertor.SimRecord)
    (maxV : ℕ) (d : List DataConvertor.SimRecord) (cols : List String)
    (c : String) (hc : c ∈ cols) :
    DataConvertor.convertedFrame sample maxV d cols =
      DataConvertor.extractRelated
        (DataConvertor.balanceClassifier sample maxV d) cols ∧
    (DataConvertor.convertedFrame sample maxV d cols).map Prod.fst = cols ∧
    ((c = "Result" ∨ c = "ServiceTime") →
      (c, (DataConvertor.balanceClassifier sample maxV d).map
          (fun r => DataConvertor.cellOf r c)) ∈
        DataConvertor.convertedFrame sample maxV d cols) ∧
    (¬(c = "Result" ∨ c = "ServiceTime") →
      (c, DataConvertor.znorm
          (DataConvertor.colNum
            (DataConvertor.balanceClassifier sample maxV d) c)) ∈
        DataConvertor.convertedFrame sample maxV d cols) ∧
    (∀ xs : List ℝ, PlotGeneric.sampleStd xs ≠ 0 →
      DataConvertor.znorm xs = xs.map (fun v =>
        DataConvertor.Cell.num
          ((v - PlotGeneric.sampleMean xs) / PlotGeneric.sampleStd xs))) := by
  refine ⟨rfl, ?_, ?_, ?_, ?_⟩
  · unfold DataConvertor.convertedFrame DataConvertor.extractRelated
    rw [List.map_map]
    conv_rhs => rw [← List.map_id cols]
    apply List.map_congr_left
    intro a _
    rfl
  · intro hpass
    apply List.mem_map.mpr
    exact ⟨c, hc, by rw [if_pos hpass]⟩
  · intro hnot
    apply List.mem_map.mpr
    exact ⟨c, hc, by rw [if_neg hnot]⟩
  · intro xs hstd
    unfold DataConvertor.znorm
    apply List.map_congr_left
    intro x _
    rw [if_neg hstd]

/-- Witness for C8: ServiceTime passes through on a concrete pipeline run,
and znorm rewrites to the mean/std form on the column [1, 3]. -/
theorem C8_witness :
    ("ServiceTime",
        (DataConvertor.balanceClassifier Wit.takeSample 100 Wit.dW).map
          (fun r => DataConvertor.cellOf r "ServiceTime")) ∈
      DataConvertor.convertedFrame Wit.takeSample 100 Wit.dW Wit.colsW ∧
    DataConvertor.znorm [(1 : ℝ), 3] = [(1 : ℝ), 3].map (fun v =>
      DataConvertor.Cell.num ((v - PlotGeneric.sampleMean [(1 : ℝ), 3]) /
        PlotGeneric.sampleStd [(1 : ℝ), 3])) := by
  have h := C8_normalization Wit.takeSample 100 Wit.dW Wit.colsW "ServiceTime"
    (by simp [Wit.colsW])
  have hvar : PlotGeneric.sampleVariance [(1 : ℝ), 3] = 2 := by
    simp [PlotGeneric.sampleVariance, PlotGeneric.sampleMean]
    norm_num
  have hstd : PlotGeneric.sampleStd [(1 : ℝ), 3] ≠ 0 := by
    rw [PlotGeneric.sampleStd, hvar]
    exact Real.sqrt_ne_zero'.mpr (by norm_num)
  exact ⟨h.2.2.1 (Or.inr rfl), h.2.2.2.2 [(1 : ℝ), 3] hstd⟩

/-- Helper: every record surviving groupby-apply balancing was in the
input dataset. -/
theorem mem_groupApply
    {sample : List DataConvertor.SimRecord → ℕ → List DataConvertor.SimRecord}
    (hs : DataConvertor.SampleOk sample) {size : ℕ}
    {d : List DataConvertor.SimRecord} {a : DataConvertor.SimRecord}
    (ha : a ∈ DataConvertor.groupApply sample size d) : a ∈ d := by
  unfold DataConvertor.groupApply at ha
  obtain ⟨w, _, hmem⟩ := List.mem_flatMap.mp ha
  exact (List.mem_filter.mp (mem_balanceStratum hs hmem)).1

/-- C9: the ARFF header declares the result column as a nominal attribute
with exactly the two values fail and success and every other column as
REAL; each data line carries exactly one rendered field per declared
attribute, in declared order, with no row index and no repeated header
line; and every record surviving classifier balancing has result fail or
success. -/
theorem C9_arff_format
    (sample : List DataConvertor.SimRecord → ℕ → List DataConvertor.SimRecord)
    (hs : DataConvertor.SampleOk sample) (maxV : ℕ)
    (d : List DataConvertor.SimRecord) (cols : List String)
    (render : ℝ → String) (c : String) (r : DataConvertor.SimRecord) :
    DataConvertor.attrDeclFor "Result" = "@attribute class \x7bfail,success\x7d" ∧
    (c ≠ "Result" →
      DataConvertor.attrDeclFor c = "@attribute " ++ c ++ " REAL") ∧
    DataConvertor.arffHeader "edge" cols =
      "@relation edge" :: "" :: (cols.map DataConvertor.attrDeclFor ++ ["", "@data"]) ∧
    (DataConvertor.dataRowFields render d cols r).length = cols.length ∧
    (DataConvertor.dataRows render d cols).length = d.length ∧
    (∀ a ∈ DataConvertor.balanceClassifier sample maxV d,
      a.result = "fail" ∨ a.result = "success") := by
  refine ⟨rfl, ?_, rfl, ?_, ?_, ?_⟩
  · intro hne
    rw [DataConvertor.attrDeclFor, if_neg hne]
  · simp [DataConvertor.dataRowFields]
  · simp [DataConvertor.dataRows]
  · intro a ha
    rcases List.mem_append.mp ha with h0 | h1
    · left
      have := mem_groupApply hs h0
      simpa using (List.mem_filter.mp this).2
    · right
      have := mem_groupApply hs h1
      simpa using (List.mem_filter.mp this).2

/-- Witness for C9 on concrete columns, record and dataset. -/
theorem C9_witness :
    DataConvertor.attrDeclFor "Result" = "@attribute class \x7bfail,success\x7d" ∧
    DataConvertor.attrDeclFor "TaskLength" = "@attribute TaskLength REAL" ∧
    (DataConvertor.dataRowFields Wit.renderW Wit.dW Wit.colsW
      (Wit.recW "fail" 100 1)).length = 3 ∧
    (∀ a ∈ DataConvertor.balanceClassifier Wit.takeSample 100 Wit.dW,
      a.result = "fail" ∨ a.result = "success") := by
  have h := C9_arff_format Wit.takeSample takeSampleOk 100 Wit.dW Wit.colsW
    Wit.renderW "TaskLength" (Wit.recW "fail" 100 1)
  exact ⟨h.1, h.2.1 (by decide), h.2.2.2.1.trans rfl, h.2.2.2.2.2⟩

/-- Helper: when every file exists, the loading loop touches every selected
(iteration, vehicle) pair. -/
theorem readTrace_total (fs : ℕ → ℕ → Option (List DataConvertor.SimRecord))
    (hfs : ∀ i v, (fs i v).isSome) :
    ∀ pairs : List (ℕ × ℕ), DataConvertor.readTrace fs pairs = pairs := by
  intro pairs
  induction pairs with
  | nil => rfl
  | cons p rest ih =>
    rcases p with ⟨i, v⟩
    rcases hrows : fs i v with _ | rows
    · exact absurd (hfs i v) (by rw [hrows]; simp)
    · simp only [DataConvertor.readTrace, hrows, ih]

/-- Helper: when every file exists, the loading loop succeeds. -/
theorem readAll_total (fs : ℕ → ℕ → Option (List DataConvertor.SimRecord))
    (hfs : ∀ i v, (fs i v).isSome) :
    ∀ pairs : List (ℕ × ℕ), ∃ ds, DataConvertor.readAll fs pairs = .ok ds := by
  intro pairs
  induction pairs with
  | nil => exact ⟨[], rfl⟩
  | cons p rest ih =>
    rcases p with ⟨i, v⟩
    obtain ⟨tail, htail⟩ := ih
    rcases hrows : fs i v with _ | rows
    · exact absurd (hfs i v) (by rw [hrows]; simp)
    · exact ⟨rows.map (fun r => { r with vehicleCount := v }) ++ tail,
        by simp only [DataConvertor.readAll, hrows, htail]⟩

/-- C6 (amended): an unknown target identifier is fatal, but the failure is
raised by the decision filter only after the loading loop has read every
record file of the selected split; the pipeline does not abort before the
record-file I/O. -/
theorem C6_late_target_error (fs : ℕ → ℕ → Option (List DataConvertor.SimRecord))
    (cfg : DataConvertor.ConvConfig) (target datatype : String)
    (htarget : DataConvertor.getDecisionColumnName target = none)
    (hfs : ∀ i v, (fs i v).isSome) :
    (DataConvertor.loadAndFilter fs cfg target datatype).1 =
      DataConvertor.readPairs cfg datatype ∧
    (DataConvertor.loadAndFilter fs cfg target datatype).2 =
      .error (.unknownTarget target) := by
  constructor
  · exact readTrace_total fs hfs _
  · obtain ⟨ds, hds⟩ := readAll_total fs hfs (DataConvertor.readPairs cfg datatype)
    unfold DataConvertor.loadAndFilter
    rw [hds]
    unfold DataConvertor.filterByDecision
    rw [htarget]

/-- C6 counterexample: target "bogus" is unknown, yet on a one-iteration
configuration where every file exists the pipeline first reads the record
file of (iteration 0, vehicle count 100) and only afterwards dies with the
unknown-target failure — record-file I/O does happen before the
configuration error is raised, contradicting the claim. -/
theorem C6_counterexample :
    (DataConvertor.loadAndFilter Wit.fs1 Wit.cfg1 "bogus" "train").1 = [(0, 100)] ∧
    (DataConvertor.loadAndFilter Wit.fs1 Wit.cfg1 "bogus" "train").2 =
      .error (.unknownTarget "bogus") := by
  have htds : DataConvertor.testDataStartIndex Wit.cfg1 = 1 := by
    norm_num [DataConvertor.testDataStartIndex, Wit.cfg1]
  have hsel : DataConvertor.selectIte Wit.cfg1 "train" 0 = true := by
    simp [DataConvertor.selectIte, htds]
  have hvr : DataConvertor.vehicleRange Wit.cfg1 = [100] := by decide
  have hr : List.range 1 = [0] := by decide
  have hn : Wit.cfg1.numIterations = 1 := rfl
  have hrp : DataConvertor.readPairs Wit.cfg1 "train" = [(0, 100)] := by
    simp [DataConvertor.readPairs, hvr, hr, hn, hsel]
  have hra : DataConvertor.readAll Wit.fs1 (DataConvertor.readPairs Wit.cfg1 "train") =
      .ok [] := by
    rw [hrp]
    rfl
  constructor
  · show DataConvertor.readTrace Wit.fs1 (DataConvertor.readPairs Wit.cfg1 "train") =
      [(0, 100)]
    rw [hrp]
    rfl
  · unfold DataConvertor.loadAndFilter
    rw [hra]
    rfl

/-- Witness for the amended C6 at the concrete unknown target "bogus". -/
theorem C6_witness :
    DataConvertor.getDecisionColumnName "bogus" = none ∧
    (DataConvertor.loadAndFilter Wit.fs1 Wit.cfg1 "bogus" "train").1 =
      DataConvertor.readPairs Wit.cfg1 "train" := by
  have ht : DataConvertor.getDecisionColumnName "bogus" = none := rfl
  have hfs : ∀ i v, (Wit.fs1 i v).isSome := fun _ _ => rfl
  exact ⟨ht, (C6_late_target_error Wit.fs1 Wit.cfg1 "bogus" "train" ht hfs).1⟩

/-- Helper: membership in the loading loop's pair list, for any guard. -/
theorem mem_readPairs (cfg : DataConvertor.ConvConfig) (dt : String)
    (cond : ℕ → Prop) (i v : ℕ)
    (hdec : ∀ j : ℕ, DataConvertor.selectIte cfg dt j = true ↔ cond j) :
    (i, v) ∈ DataConvertor.readPairs cfg dt ↔
      i < cfg.numIterations ∧ v ∈ DataConvertor.vehicleRange cfg ∧ cond i := by
  unfold DataConvertor.readPairs
  simp only [List.mem_flatMap, List.mem_filterMap, List.mem_range,
    Option.ite_none_right_eq_some, Option.some.injEq, Prod.mk.injEq]
  constructor
  · rintro ⟨a, ha, w, hw, hsel, rfl, rfl⟩
    exact ⟨ha, hw, (hdec a).mp hsel⟩
  · rintro ⟨hi, hv, hc⟩
    exact ⟨i, hi, v, hv, (hdec i).mpr hc, rfl, rfl⟩

/-- Helper: the train-split guard holds exactly below the boundary. -/
theorem selectIte_train (cfg : DataConvertor.ConvConfig) (j : ℕ) :
    DataConvertor.selectIte cfg "train" j = true ↔
      (j : ℚ) < DataConvertor.testDataStartIndex cfg := by
  simp [DataConvertor.selectIte]

/-- Helper: the test-split guard holds exactly at or above the boundary. -/
theorem selectIte_test (cfg : DataConvertor.ConvConfig) (j : ℕ) :
    DataConvertor.selectIte cfg "test" j = true ↔
      DataConvertor.testDataStartIndex cfg ≤ (j : ℚ) := by
  simp [DataConvertor.selectIte]

/-- C10: iteration `i`'s record files are loaded into the train split iff
`i < train_data_ratio * num_iterations / 100`, into the test split iff
`i ≥` that same boundary; hence a pair is never in both splits and every
pair of the iteration space is in exactly one of them. -/
theorem C10_train_test_split (cfg : DataConvertor.ConvConfig) (i v : ℕ) :
    ((i, v) ∈ DataConvertor.readPairs cfg "train" ↔
      i < cfg.numIterations ∧ v ∈ DataConvertor.vehicleRange cfg ∧
        (i : ℚ) < DataConvertor.testDataStartIndex cfg) ∧
    ((i, v) ∈ DataConvertor.readPairs cfg "test" ↔
      i < cfg.numIterations ∧ v ∈ DataConvertor.vehicleRange cfg ∧
        DataConvertor.testDataStartIndex cfg ≤ (i : ℚ)) ∧
    ¬((i, v) ∈ DataConvertor.readPairs cfg "train" ∧
      (i, v) ∈ DataConvertor.readPairs cfg "test") ∧
    (i < cfg.numIterations → v ∈ DataConvertor.vehicleRange cfg →
      ((i, v) ∈ DataConvertor.readPairs cfg "train" ∨
        (i, v) ∈ DataConvertor.readPairs cfg "test")) := by
  have htrain := mem_readPairs cfg "train"
    (fun j => (j : ℚ) < DataConvertor.testDataStartIndex cfg) i v
    (selectIte_train cfg)
  have htest := mem_readPairs cfg "test"
    (fun j => DataConvertor.testDataStartIndex cfg ≤ (j : ℚ)) i v
    (selectIte_test cfg)
  refine ⟨htrain, htest, ?_, ?_⟩
  · rintro ⟨h1, h2⟩
    exact absurd ((htest.mp h2).2.2) (not_le.mpr ((htrain.mp h1).2.2))
  · intro hi hv
    by_cases hlt : (i : ℚ) < DataConvertor.testDataStartIndex cfg
    · exact Or.inl (htrain.mpr ⟨hi, hv, hlt⟩)
    · exact Or.inr (htest.mpr ⟨hi, hv, le_of_not_lt hlt⟩)

/-- Witness for C10 with two iterations and a 50% split: iteration 0 goes
to the train split, iteration 1 to the test split, and no pair is in both. -/
theorem C10_witness :
    (0, 100) ∈ DataConvertor.readPairs Wit.cfgW "train" ∧
    (1, 100) ∈ DataConvertor.readPairs Wit.cfgW "test" ∧
    ¬((0, 100) ∈ DataConvertor.readPairs Wit.cfgW "train" ∧
      (0, 100) ∈ DataConvertor.readPairs Wit.cfgW "test") := by
  have h0 := C10_train_test_split Wit.cfgW 0 100
  have h1 := C10_train_test_split Wit.cfgW 1 100
  have htds : DataConvertor.testDataStartIndex Wit.cfgW = 1 := by
    norm_num [DataConvertor.testDataStartIndex, Wit.cfgW]
  have hvr : (100 : ℕ) ∈ DataConvertor.vehicleRange Wit.cfgW := by decide
  refine ⟨h0.1.mpr ⟨by norm_num [Wit.cfgW], hvr, ?_⟩,
    h1.2.1.mpr ⟨by norm_num [Wit.cfgW], hvr, ?_⟩, h0.2.2.1⟩
  · rw [htds]
    norm_num
  · rw [htds]
    norm_num
